import Mathlib

/-!
Verification of the notes-data-fetcher program: a shallow embedding of
`src/note.py`, `src/helper.py` and `src/notes_data_fetcher.py`, together
with theorems settling the specification's claims about them.

JSON objects reaching the extractor are modelled structurally: a key that
may be missing from the Python dict becomes an `Option` field, and
`dict.get(key, default)` becomes `Option.getD`.
-/

/-- A note record as found in the API response: the Python dict passed to
`Note(**note_data)`.  `n_ans` is the note text (required by the pydantic
model), `n_imgs` the optional image list. -/
structure NoteRecord where
  n_ans : Option String
  n_imgs : Option (List String)
deriving Repr, DecidableEq

/-- A topic object of the API response: `t_m_id` is the topic identifier,
`n_data` the nested list of note records; either key may be absent. -/
structure TopicObj where
  t_m_id : Option String
  n_data : Option (List NoteRecord)
deriving Repr, DecidableEq

/-- The API response: a JSON object whose top-level `data` key (possibly
absent) holds the list of topic objects. -/
structure RawResponse where
  data : Option (List TopicObj)
deriving Repr, DecidableEq

/-- The pydantic `Note` model of `src/note.py`: field `note` (alias
`n_ans`, required) and `note_images` (alias `n_imgs`, optional,
default `None`). -/
structure Note where
  note : String
  note_images : Option (List String)
deriving Repr, DecidableEq

/-- `Note(**note_data)`: pydantic validation fails (`ValidationError`,
the spec's `InvalidNoteRecord`) exactly when the required `n_ans` field
is missing; `n_imgs` defaults to `None` when absent. -/
def decodeNote (r : NoteRecord) : Except String Note :=
  match r.n_ans with
  | none => Except.error "InvalidNoteRecord"
  | some a => Except.ok { note := a, note_images := r.n_imgs }

/-- The `images` property of `Note`:
`", ".join(self.note_images) if self.note_images else ""`.
Python truthiness makes both `None` and the empty list take the
`else` branch. -/
def Note.images (n : Note) : String :=
  match n.note_images with
  | none => ""
  | some [] => ""
  | some (x :: xs) => String.intercalate ", " (x :: xs)

/-- The `topic_ids` argument of `extract_notes_by_topic_ids`, whose
Python type is `Union[str, List[str]]`. -/
inductive TopicIdsArg where
  | str (s : String)
  | list (l : List String)
deriving Repr, DecidableEq

/-- The normalisation at the top of `extract_notes_by_topic_ids`:
`if isinstance(topic_ids, str): topic_ids = [topic_ids]`. -/
def normalizeTopicIds : TopicIdsArg → List String
  | .str s => [s]
  | .list l => l

/-- The membership test `topic.get("t_m_id") in topic_ids`: a missing
key yields Python `None`, which is never equal to any of the strings
in `topic_ids`. -/
def tmidMatches (tid : Option String) (topicIds : List String) : Bool :=
  match tid with
  | none => false
  | some s => topicIds.contains s

/-- The row dict appended by the loop body:
`{"topic_id": topic.get("t_m_id"), "note": note_obj.note,
"images": note_obj.images}`. -/
structure ExtractedRow where
  topic_id : Option String
  note : String
  images : String
deriving Repr, DecidableEq

/-- Builds one output row from the owning topic's identifier and a
decoded note. -/
def rowOfNote (tid : Option String) (n : Note) : ExtractedRow :=
  { topic_id := tid, note := n.note, images := n.images }

/-- The inner loop of `extract_notes_by_topic_ids`
(`for note_data in topic.get("n_data", []): ...`), threading the
`filtered_notes` accumulator and propagating a pydantic validation
error as the Python exception would. -/
def notesLoop (tid : Option String) (acc : List ExtractedRow) :
    List NoteRecord → Except String (List ExtractedRow)
  | [] => Except.ok acc
  | nd :: rest =>
    match decodeNote nd with
    | Except.error e => Except.error e
    | Except.ok n => notesLoop tid (acc ++ [rowOfNote tid n]) rest

/-- The outer loop of `extract_notes_by_topic_ids`
(`for topic in data.get("data", []): if topic.get("t_m_id") in
topic_ids: ...`). -/
def topicsLoop (topicIds : List String) (acc : List ExtractedRow) :
    List TopicObj → Except String (List ExtractedRow)
  | [] => Except.ok acc
  | t :: rest =>
    if tmidMatches t.t_m_id topicIds then
      match notesLoop t.t_m_id acc (t.n_data.getD []) with
      | Except.error e => Except.error e
      | Except.ok acc2 => topicsLoop topicIds acc2 rest
    else
      topicsLoop topicIds acc rest

/-- `NotesDataFetcher.extract_notes_by_topic_ids`: normalise the
`topic_ids` argument, then run the nested filtering loop over
`data.get("data", [])` starting from the empty accumulator. -/
def extract_notes_by_topic_ids (data : RawResponse)
    (topicIds : TopicIdsArg) : Except String (List ExtractedRow) :=
  topicsLoop (normalizeTopicIds topicIds) [] (data.data.getD [])

/-- Per-topic rows in response order: decode each note record of the
topic and pair it with the topic's identifier.  Order-preserving by
construction (`List.mapM`). -/
def decodeTopicNotes (t : TopicObj) : Except String (List ExtractedRow) :=
  (t.n_data.getD []).mapM (fun nd => (decodeNote nd).map (rowOfNote t.t_m_id))

/-- Declarative characterisation of the extractor used to state the
ordering claim: keep the topics passing the identifier filter in
response order, decode each one's notes in response order, and
concatenate — no sorting anywhere. -/
def extractOrdered (data : RawResponse) (topicIds : List String) :
    Except String (List ExtractedRow) :=
  (((data.data.getD []).filter (fun t => tmidMatches t.t_m_id topicIds)).mapM
    decodeTopicNotes).map List.flatten

lemma notesLoop_eq (tid : Option String) (l : List NoteRecord)
    (acc : List ExtractedRow) :
    notesLoop tid acc l =
      (l.mapM (fun nd => (decodeNote nd).map (rowOfNote tid))).map
        (fun rows => acc ++ rows) := by
  induction l generalizing acc with
  | nil =>
    rw [List.mapM_nil]
    simp [notesLoop, Except.map, pure, Except.pure]
  | cons nd rest ih =>
    rw [List.mapM_cons]
    cases h : decodeNote nd with
    | error e =>
      simp [notesLoop, h, Except.map, Bind.bind, Except.bind]
    | ok n =>
      rw [notesLoop]
      rw [h]
      show notesLoop tid (acc ++ [rowOfNote tid n]) rest = _
      rw [ih]
      cases hr : rest.mapM (fun nd => (decodeNote nd).map (rowOfNote tid)) with
      | error e =>
        simp [h, hr, Except.map, Bind.bind, Except.bind]
      | ok rows =>
        simp [h, hr, Except.map, Bind.bind, Except.bind, pure, Except.pure]

lemma topicsLoop_eq (tids : List String) (ts : List TopicObj)
    (acc : List ExtractedRow) :
    topicsLoop tids acc ts =
      ((ts.filter (fun t => tmidMatches t.t_m_id tids)).mapM
        decodeTopicNotes).map (fun ls => acc ++ ls.flatten) := by
  induction ts generalizing acc with
  | nil =>
    rw [List.filter_nil, List.mapM_nil]
    simp [topicsLoop, Except.map, pure, Except.pure]
  | cons t rest ih =>
    rw [topicsLoop, List.filter_cons]
    cases hm : tmidMatches t.t_m_id tids with
    | false =>
      simp only [hm, if_false, Bool.false_eq_true]
      exact ih acc
    | true =>
      simp only [hm, if_true]
      rw [List.mapM_cons, notesLoop_eq]
      cases hd : decodeTopicNotes t with
      | error e =>
        rw [show ((t.n_data.getD []).mapM
              (fun nd => (decodeNote nd).map (rowOfNote t.t_m_id))) =
            Except.error e from hd]
        simp [Except.map, Bind.bind, Except.bind]
      | ok rows =>
        rw [show ((t.n_data.getD []).mapM
              (fun nd => (decodeNote nd).map (rowOfNote t.t_m_id))) =
            Except.ok rows from hd]
        show topicsLoop tids (acc ++ rows) rest = _
        rw [ih]
        cases hr : (rest.filter (fun t => tmidMatches t.t_m_id tids)).mapM
            decodeTopicNotes with
        | error e =>
          simp [hd, hr, Except.map, Bind.bind, Except.bind]
        | ok ls =>
          simp [hd, hr, Except.map, Bind.bind, Except.bind, pure, Except.pure]

lemma mapM_ok_mem {α β : Type} (f : α → Except String β) :
    ∀ (l : List α) (ys : List β), l.mapM f = Except.ok ys →
      ∀ y ∈ ys, ∃ x ∈ l, f x = Except.ok y := by
  intro l
  induction l with
  | nil =>
    intro ys h y hy
    rw [List.mapM_nil] at h
    simp [pure, Except.pure] at h
    subst h
    simp at hy
  | cons x rest ih =>
    intro ys h y hy
    rw [List.mapM_cons] at h
    cases hx : f x with
    | error e =>
      rw [hx] at h
      simp [Bind.bind, Except.bind] at h
    | ok b =>
      rw [hx] at h
      cases hr : rest.mapM f with
      | error e =>
        rw [hr] at h
        simp [Bind.bind, Except.bind] at h
      | ok bs =>
        rw [hr] at h
        simp [Bind.bind, Except.bind, pure, Except.pure] at h
        subst h
        rcases List.mem_cons.mp hy with hyb | hybs
        · exact ⟨x, List.mem_cons_self x rest, hyb ▸ hx⟩
        · obtain ⟨x', hx', hfx'⟩ := ih bs hr y hybs
          exact ⟨x', List.mem_cons_of_mem x hx', hfx'⟩

lemma tmidMatches_elim (tid : Option String) (tids : List String)
    (h : tmidMatches tid tids = true) : ∃ s, tid = some s ∧ s ∈ tids := by
  cases tid with
  | none => simp [tmidMatches] at h
  | some s =>
    refine ⟨s, rfl, ?_⟩
    simpa [tmidMatches] using h

lemma decodeTopicNotes_topic_id (t : TopicObj) (rows : List ExtractedRow)
    (h : decodeTopicNotes t = Except.ok rows) :
    ∀ r ∈ rows, r.topic_id = t.t_m_id := by
  intro r hr
  obtain ⟨nd, _, hf⟩ := mapM_ok_mem _ _ _ h r hr
  cases hdn : decodeNote nd with
  | error e => rw [hdn] at hf; simp [Except.map] at hf
  | ok n =>
    rw [hdn] at hf
    simp [Except.map] at hf
    rw [← hf]
    rfl

/-- C1: every row returned by `extract_notes_by_topic_ids` carries a topic
identifier belonging to the requested filter set, and the returned rows
are exactly the order-preserving filter-decode-concatenate of the
response (topic order first, then note order within a topic; no
additional sorting). -/
theorem extract_rows_filtered_and_ordered (data : RawResponse)
    (arg : TopicIdsArg) :
    extract_notes_by_topic_ids data arg =
      extractOrdered data (normalizeTopicIds arg) ∧
    ∀ rows, extract_notes_by_topic_ids data arg = Except.ok rows →
      ∀ r ∈ rows, ∃ s, r.topic_id = some s ∧ s ∈ normalizeTopicIds arg := by
  have heq : extract_notes_by_topic_ids data arg =
      extractOrdered data (normalizeTopicIds arg) := by
    rw [extract_notes_by_topic_ids, extractOrdered, topicsLoop_eq]
    congr 1
  refine ⟨heq, ?_⟩
  intro rows h r hr
  rw [heq, extractOrdered] at h
  cases hm : ((data.data.getD []).filter
      (fun t => tmidMatches t.t_m_id (normalizeTopicIds arg))).mapM
      decodeTopicNotes with
  | error e => rw [hm] at h; simp [Except.map] at h
  | ok ls =>
    rw [hm] at h
    simp [Except.map] at h
    subst h
    obtain ⟨l, hl, hrl⟩ := List.mem_flatten.mp hr
    obtain ⟨t, ht, hdt⟩ := mapM_ok_mem _ _ _ hm l hl
    have htid := decodeTopicNotes_topic_id t l hdt r hrl
    have hmem := List.mem_filter.mp ht
    obtain ⟨s, hs, hsmem⟩ :=
      tmidMatches_elim t.t_m_id (normalizeTopicIds arg) hmem.2
    exact ⟨s, htid.trans hs, hsmem⟩

/-- A one-topic, one-note response used to instantiate C1's theorem. -/
def oneTopicResponse : RawResponse :=
  ⟨some [⟨some "A", some [⟨some "n1", none⟩]⟩]⟩

/-- Witness for C1: on a concrete response filtered by `["A"]`, the single
produced row indeed carries a topic identifier in the filter set. -/
theorem extract_rows_filtered_and_ordered_witness :
    ∃ s, (ExtractedRow.mk (some "A") "n1" "").topic_id = some s ∧
      s ∈ normalizeTopicIds (TopicIdsArg.list ["A"]) :=
  (extract_rows_filtered_and_ordered oneTopicResponse
      (TopicIdsArg.list ["A"])).2
    [⟨some "A", "n1", ""⟩] (by rfl) ⟨some "A", "n1", ""⟩ (by simp)

/-- The response of the spec's extraction scenario:
`{"data":[{"t_m_id":"TDS","n_data":[{"n_ans":"X","n_imgs":["i1"]},
{"n_ans":"Y"}]},{"t_m_id":"OTHER","n_data":[{"n_ans":"Z"}]}]}`. -/
def scenarioResponse : RawResponse :=
  ⟨some [⟨some "TDS", some [⟨some "X", some ["i1"]⟩, ⟨some "Y", none⟩]⟩,
         ⟨some "OTHER", some [⟨some "Z", none⟩]⟩]⟩

/-- C2: filtering the scenario response by `["TDS"]` yields exactly the
rows `("TDS", "X", "i1")` and `("TDS", "Y", "")`, in that order. -/
theorem extract_scenario_rows :
    extract_notes_by_topic_ids scenarioResponse (TopicIdsArg.list ["TDS"]) =
      Except.ok [⟨some "TDS", "X", "i1"⟩, ⟨some "TDS", "Y", ""⟩] := by
  rfl

/-- C4: decoding a note record fails exactly when the required note-text
field `n_ans` is missing, and an absent image-list field `n_imgs` does
not cause a failure — it defaults to absent (`none`). -/
theorem decodeNote_fails_iff_missing_note_text (r : NoteRecord)
    (a : String) :
    ((∃ e, decodeNote r = Except.error e) ↔ r.n_ans = none) ∧
    decodeNote { n_ans := some a, n_imgs := none } =
      Except.ok { note := a, note_images := none } := by
  refine ⟨⟨?_, ?_⟩, rfl⟩
  · rintro ⟨e, he⟩
    cases h : r.n_ans with
    | none => rfl
    | some a' => simp [decodeNote, h] at he
  · intro h
    exact ⟨"InvalidNoteRecord", by simp [decodeNote, h]⟩

/-- C5: the image display string joins the image references with the
separator `", "`, and is the empty string when the image list is empty
or absent; in particular `["a.jpg", "b.jpg"]` renders as
`"a.jpg, b.jpg"`. -/
theorem note_images_join (t s : String) (l : List String) :
    Note.images { note := t, note_images := none } = "" ∧
    Note.images { note := t, note_images := some [] } = "" ∧
    Note.images { note := t, note_images := some (s :: l) } =
      String.intercalate ", " (s :: l) ∧
    Note.images { note := t, note_images := some ["a.jpg", "b.jpg"] } =
      "a.jpg, b.jpg" :=
  ⟨rfl, rfl, rfl, rfl⟩

/-- C9: passing one topic identifier as a bare string behaves exactly as
the one-element list of that identifier. -/
theorem extract_string_arg_eq_singleton_list (data : RawResponse)
    (s : String) :
    extract_notes_by_topic_ids data (TopicIdsArg.str s) =
      extract_notes_by_topic_ids data (TopicIdsArg.list [s]) :=
  rfl

lemma topicsLoop_skip_empty (tids : List String) (t : TopicObj)
    (h : t.n_data = none) :
    ∀ (ts1 : List TopicObj) (acc : List ExtractedRow) (ts2 : List TopicObj),
      topicsLoop tids acc (ts1 ++ t :: ts2) =
        topicsLoop tids acc (ts1 ++ ts2) := by
  intro ts1
  induction ts1 with
  | nil =>
    intro acc ts2
    simp only [List.nil_append]
    rw [topicsLoop]
    cases hm : tmidMatches t.t_m_id tids with
    | false => simp [hm]
    | true =>
      simp only [hm, if_true]
      rw [h]
      rfl
  | cons u rest ih =>
    intro acc ts2
    simp only [List.cons_append]
    rw [topicsLoop]
    rw [show topicsLoop tids acc (u :: (rest ++ ts2)) =
        (if tmidMatches u.t_m_id tids then
          match notesLoop u.t_m_id acc (u.n_data.getD []) with
          | Except.error e => Except.error e
          | Except.ok acc2 => topicsLoop tids acc2 (rest ++ ts2)
        else topicsLoop tids acc (rest ++ ts2)) from by rw [topicsLoop]]
    cases hm : tmidMatches u.t_m_id tids with
    | false =>
      simp only [hm, Bool.false_eq_true, if_false]
      exact ih acc ts2
    | true =>
      simp only [hm, if_true]
      cases hn : notesLoop u.t_m_id acc (u.n_data.getD []) with
      | error e => rfl
      | ok acc2 => exact ih acc2 ts2

/-- C10: the extractor is total on responses with missing collection
keys — a missing top-level `data` key yields the empty row sequence,
and a topic object missing its `n_data` key contributes zero rows, as
if the collections were empty. -/
theorem extract_total_on_missing_keys (tids : TopicIdsArg) (t : TopicObj)
    (ts1 ts2 : List TopicObj) (h : t.n_data = none) :
    extract_notes_by_topic_ids ⟨none⟩ tids = Except.ok [] ∧
    extract_notes_by_topic_ids ⟨some (ts1 ++ t :: ts2)⟩ tids =
      extract_notes_by_topic_ids ⟨some (ts1 ++ ts2)⟩ tids := by
  refine ⟨rfl, ?_⟩
  rw [extract_notes_by_topic_ids, extract_notes_by_topic_ids]
  exact topicsLoop_skip_empty (normalizeTopicIds tids) t h ts1 [] ts2

/-- Witness for C10: a concrete topic with no `n_data` key contributes
zero rows, and a response with no `data` key extracts to no rows. -/
theorem extract_total_on_missing_keys_witness :
    extract_notes_by_topic_ids ⟨none⟩ (TopicIdsArg.list ["A"]) =
      Except.ok [] ∧
    extract_notes_by_topic_ids
        ⟨some ([] ++ (⟨some "A", none⟩ : TopicObj) :: [])⟩
        (TopicIdsArg.list ["A"]) =
      extract_notes_by_topic_ids ⟨some ([] ++ [])⟩
        (TopicIdsArg.list ["A"]) :=
  extract_total_on_missing_keys (TopicIdsArg.list ["A"])
    ⟨some "A", none⟩ [] [] rfl

/-- A clock value with the fields `strftime` uses, standing in for a
Python `datetime` (second precision, as the program formats it). -/
structure PyDateTime where
  year : Nat
  month : Nat
  day : Nat
  hour : Nat
  minute : Nat
  second : Nat
deriving Repr, DecidableEq

/-- Zero-padding to two digits, as `strftime` does for `%m %d %H %M %S`. -/
def pad2 (n : Nat) : String :=
  if n < 10 then "0" ++ toString n else toString n

/-- Zero-padding to four digits, as `strftime` does for `%Y`. -/
def pad4 (n : Nat) : String :=
  if n < 10 then "000" ++ toString n
  else if n < 100 then "00" ++ toString n
  else if n < 1000 then "0" ++ toString n
  else toString n

/-- `current_time.strftime("%Y%m%d_%H%M%S")` from
`Helper.get_output_path`. -/
def strftimeCompact (d : PyDateTime) : String :=
  pad4 d.year ++ pad2 d.month ++ pad2 d.day ++ "_" ++
    pad2 d.hour ++ pad2 d.minute ++ pad2 d.second

/-- `Helper.get_output_path` of `src/helper.py`; the `datetime.now()`
call made inside it is passed in as `now`. -/
def Helper.get_output_path (topic_ids : List String)
    (now : PyDateTime) : String :=
  let timestamp := strftimeCompact now
  let excel_file_name :=
    String.intercalate "_" topic_ids ++ "_notes_" ++ timestamp ++ ".xlsx"
  let ouput_directory := "output"
  ouput_directory ++ "/" ++ excel_file_name

/-- The output-path selection at the top of `save_to_excel`:
`if not output_path: output_path = Helper.get_output_path(topic_ids)`.
Python falsiness sends both `None` and `""` to the derived path. -/
def save_to_excel_output_path (topic_ids : List String)
    (output_path : Option String) (now : PyDateTime) : String :=
  match output_path with
  | none => Helper.get_output_path topic_ids now
  | some p => if p = "" then Helper.get_output_path topic_ids now else p

/-- C8: with no explicit output path, the writer derives
`output/{topic_ids joined by "_"}_notes_{YYYYMMDD_HHMMSS}.xlsx`; the
timestamp format is checked on a concrete clock value. -/
theorem derived_output_path (tids : List String) (now : PyDateTime) :
    save_to_excel_output_path tids none now =
      "output/" ++ String.intercalate "_" tids ++ "_notes_" ++
        strftimeCompact now ++ ".xlsx" ∧
    strftimeCompact ⟨2024, 3, 7, 9, 5, 2⟩ = "20240307_090502" := by
  constructor
  · show "output" ++ "/" ++
        (String.intercalate "_" tids ++ "_notes_" ++
          strftimeCompact now ++ ".xlsx") = _
    simp [String.append_assoc]
  · rfl

/-- The module-import-time evaluation of the default argument in
`def update_input_date(self, current_date: datetime = datetime.now())`:
Python evaluates `datetime.now()` once, when the function object is
created during class-body execution at import, so the default is the
import-time clock value. -/
def update_input_date_default (importTime : PyDateTime) : PyDateTime :=
  importTime

/-- `NotesDataFetcher.update_input_date`: the date written to the config
file is the explicit argument when one is passed, else the default
captured at import time. -/
def update_input_date (importTime : PyDateTime)
    (current_date : Option PyDateTime) : PyDateTime :=
  match current_date with
  | some d => d
  | none => update_input_date_default importTime

/-- The date persisted by the final step of `process`, which calls
`self.update_input_date()` with no argument; `stepTime` is the clock
value at the moment that step runs. -/
def processPersistedDate (importTime stepTime : PyDateTime) : PyDateTime :=
  update_input_date importTime none

/-- C3 (refuted on the code): the date persisted by the final
`process` step is ALWAYS the import-time clock value, ignoring the time
at which the step runs; on a concrete run whose persist step executes
months after import, the persisted value is still the import time. -/
theorem persisted_date_is_import_time :
    processPersistedDate ⟨2023, 1, 1, 0, 0, 0⟩ ⟨2023, 6, 15, 12, 30, 0⟩ =
      ⟨2023, 1, 1, 0, 0, 0⟩ ∧
    (⟨2023, 1, 1, 0, 0, 0⟩ : PyDateTime) ≠ ⟨2023, 6, 15, 12, 30, 0⟩ ∧
    ∀ importTime stepTime : PyDateTime,
      processPersistedDate importTime stepTime = importTime :=
  ⟨rfl, by decide, fun _ _ => rfl⟩

/-- The five sequential steps invoked by `NotesDataFetcher.process`, in
program order. -/
inductive Stage where
  | readState
  | fetchData
  | extractRows
  | saveOutput
  | persistState
deriving Repr, DecidableEq

/-- The steps of `process` in the order the method body invokes them. -/
def allStages : List Stage :=
  [Stage.readState, Stage.fetchData, Stage.extractRows,
   Stage.saveOutput, Stage.persistState]

/-- `NotesDataFetcher.process`, instrumented with the list of steps it
invokes.  The effectful collaborators (state read, HTTP fetch, output
write, state write) are passed as oracles returning `Except`, matching
the source where each helper either returns or raises; an exception
anywhere propagates out of `process` uncaught, skipping the rest of the
method body.  The extraction step is the real
`extract_notes_by_topic_ids`. -/
def processRun (readRes : Except String String)
    (fetchRes : String → Except String RawResponse)
    (topicIds : TopicIdsArg)
    (saveRes : List ExtractedRow → Except String Unit)
    (persistRes : Except String Unit) :
    List Stage × Except String Unit :=
  match readRes with
  | Except.error e => ([Stage.readState], Except.error e)
  | Except.ok input_date =>
    match fetchRes input_date with
    | Except.error e =>
      ([Stage.readState, Stage.fetchData], Except.error e)
    | Except.ok api_data =>
      match extract_notes_by_topic_ids api_data topicIds with
      | Except.error e =>
        ([Stage.readState, Stage.fetchData, Stage.extractRows],
         Except.error e)
      | Except.ok filtered_notes =>
        match saveRes filtered_notes with
        | Except.error e =>
          ([Stage.readState, Stage.fetchData, Stage.extractRows,
            Stage.saveOutput], Except.error e)
        | Except.ok _ =>
          match persistRes with
          | Except.error e => (allStages, Except.error e)
          | Except.ok _ => (allStages, Except.ok ())

/-- C6: a failure in any stage aborts every later stage.  Each failing
stage is characterised exactly: the trace of invoked steps is the
steps up to and including the failing one and the run result is that
failure — so no step after a failed one ever executes.  In particular a
failed state-store read gives the trace `[readState]`, with the fetch
step never invoked; and a run that succeeds executed all five steps. -/
theorem process_stage_failure_aborts (readRes : Except String String)
    (fetchRes : String → Except String RawResponse)
    (topicIds : TopicIdsArg)
    (saveRes : List ExtractedRow → Except String Unit)
    (persistRes : Except String Unit) :
    (∀ e, readRes = Except.error e →
      processRun readRes fetchRes topicIds saveRes persistRes =
        ([Stage.readState], Except.error e) ∧
      Stage.fetchData ∉
        (processRun readRes fetchRes topicIds saveRes persistRes).1) ∧
    (∀ d e, readRes = Except.ok d → fetchRes d = Except.error e →
      processRun readRes fetchRes topicIds saveRes persistRes =
        ([Stage.readState, Stage.fetchData], Except.error e)) ∧
    (∀ d resp e, readRes = Except.ok d → fetchRes d = Except.ok resp →
      extract_notes_by_topic_ids resp topicIds = Except.error e →
      processRun readRes fetchRes topicIds saveRes persistRes =
        ([Stage.readState, Stage.fetchData, Stage.extractRows],
         Except.error e)) ∧
    (∀ d resp rows e, readRes = Except.ok d →
      fetchRes d = Except.ok resp →
      extract_notes_by_topic_ids resp topicIds = Except.ok rows →
      saveRes rows = Except.error e →
      processRun readRes fetchRes topicIds saveRes persistRes =
        ([Stage.readState, Stage.fetchData, Stage.extractRows,
          Stage.saveOutput], Except.error e)) ∧
    (∀ d resp rows u e, readRes = Except.ok d →
      fetchRes d = Except.ok resp →
      extract_notes_by_topic_ids resp topicIds = Except.ok rows →
      saveRes rows = Except.ok u → persistRes = Except.error e →
      processRun readRes fetchRes topicIds saveRes persistRes =
        (allStages, Except.error e)) ∧
    (∀ d resp rows u w, readRes = Except.ok d →
      fetchRes d = Except.ok resp →
      extract_notes_by_topic_ids resp topicIds = Except.ok rows →
      saveRes rows = Except.ok u → persistRes = Except.ok w →
      processRun readRes fetchRes topicIds saveRes persistRes =
        (allStages, Except.ok ())) := by
  refine ⟨?_, ?_, ?_, ?_, ?_, ?_⟩
  · intro e hr
    subst hr
    exact ⟨rfl, by simp [processRun]⟩
  · intro d e hr hf
    subst hr
    simp [processRun, hf]
  · intro d resp e hr hf hx
    subst hr
    simp [processRun, hf, hx]
  · intro d resp rows e hr hf hx hs
    subst hr
    simp [processRun, hf, hx, hs]
  · intro d resp rows u e hr hf hx hs hp
    subst hr
    subst hp
    simp [processRun, hf, hx, hs]
  · intro d resp rows u w hr hf hx hs hp
    subst hr
    subst hp
    simp [processRun, hf, hx, hs]

/-- Witness for C6: a failing state-store read yields the one-step trace
with fetch never invoked, and a concrete run whose extraction step
fails (a matched note record with no `n_ans`) stops with exactly the
first three steps invoked — the save and persist steps never run. -/
theorem process_stage_failure_aborts_witness :
    (processRun (Except.error "no state")
        (fun _ => Except.ok ⟨none⟩) (TopicIdsArg.list ["A"])
        (fun _ => Except.ok ()) (Except.ok ()) =
      ([Stage.readState], Except.error "no state") ∧
    Stage.fetchData ∉
      (processRun (Except.error "no state")
        (fun _ => Except.ok ⟨none⟩) (TopicIdsArg.list ["A"])
        (fun _ => Except.ok ()) (Except.ok ())).1) ∧
    processRun (Except.ok "2023-01-01 00:00:00")
        (fun _ => Except.ok ⟨some [⟨some "A", some [⟨none, none⟩]⟩]⟩)
        (TopicIdsArg.list ["A"])
        (fun _ => Except.ok ()) (Except.ok ()) =
      ([Stage.readState, Stage.fetchData, Stage.extractRows],
       Except.error "InvalidNoteRecord") :=
  ⟨(process_stage_failure_aborts (Except.error "no state")
      (fun _ => Except.ok ⟨none⟩) (TopicIdsArg.list ["A"])
      (fun _ => Except.ok ()) (Except.ok ())).1 "no state" rfl,
   (process_stage_failure_aborts (Except.ok "2023-01-01 00:00:00")
      (fun _ => Except.ok ⟨some [⟨some "A", some [⟨none, none⟩]⟩]⟩)
      (TopicIdsArg.list ["A"])
      (fun _ => Except.ok ()) (Except.ok ())).2.2.1
     "2023-01-01 00:00:00" ⟨some [⟨some "A", some [⟨none, none⟩]⟩]⟩
     "InvalidNoteRecord" rfl rfl (by rfl)⟩

/-- The fetcher object built by `NotesDataFetcher.__init__`. -/
structure NotesDataFetcher where
  config_path : String
  base_url : String
deriving Repr, DecidableEq

/-- `NotesDataFetcher.__init__`: reads `API_BASE_URL` from the
environment with default `""` and raises `EnvironmentError` when the
value is falsy (the variable absent or set to the empty string).  The
constructor is pure apart from this environment read: it performs no
network request and no state/output file access. -/
def NotesDataFetcher.construct (config_path : String)
    (envBaseUrl : Option String) : Except String NotesDataFetcher :=
  let base_url := envBaseUrl.getD ""
  if base_url = "" then
    Except.error "API_BASE_URL environment variable is not set"
  else
    Except.ok { config_path := config_path, base_url := base_url }

/-- The `main` entry point around `process`: construct the fetcher, then
run the workflow.  A construction failure leaves the stage trace empty:
no step of `process` — in particular no network or file access — ever
runs. -/
def mainRun (envBaseUrl : Option String)
    (readRes : Except String String)
    (fetchRes : String → Except String RawResponse)
    (topicIds : TopicIdsArg)
    (saveRes : List ExtractedRow → Except String Unit)
    (persistRes : Except String Unit) :
    List Stage × Except String Unit :=
  match NotesDataFetcher.construct "config.xlsx" envBaseUrl with
  | Except.error e => ([], Except.error e)
  | Except.ok _ =>
    processRun readRes fetchRes topicIds saveRes persistRes

/-- C7: with the base-URL setting absent, constructing the fetcher fails
with the configuration error, and the whole run aborts with an empty
stage trace — before any network request or state/output file access. -/
theorem missing_base_url_fails_at_startup (cfg : String)
    (readRes : Except String String)
    (fetchRes : String → Except String RawResponse)
    (topicIds : TopicIdsArg)
    (saveRes : List ExtractedRow → Except String Unit)
    (persistRes : Except String Unit) :
    NotesDataFetcher.construct cfg none =
      Except.error "API_BASE_URL environment variable is not set" ∧
    mainRun none readRes fetchRes topicIds saveRes persistRes =
      ([], Except.error "API_BASE_URL environment variable is not set") :=
  ⟨rfl, rfl⟩
